import Mathlib

/-!
# horizon: scripting bridge of the board exports, and the dimension tool

A shallow embedding of `src/python_module/board.cpp` (the `horizon.Board`
Python type: its allocator, the `BoardWrapper` constructor, the four
`get_*_export_settings` getters and the four `export_*` methods) and of the
declaration in `src/core/tools/tool_draw_dimension.hpp`.

Code that `board.cpp` calls but that lives in other translation units
(`json_from_py`, `py_from_json`, the settings constructors and serializers,
the exporters, the loaders) is taken as a parameter, bundled in `Externals`.
Text crosses the boundary to the host as C strings: bytes up to the first
NUL, which the host decodes as UTF-8.
-/

namespace Horizon

/-! ## C strings and their decoding by the host -/

/-- The bytes of a `std::string` or of a C string, each below 256. -/
abbrev Bytes := List Nat

/-- The C string a `const char *` designates (`s.c_str()`, `e.what()`): the
bytes before the first NUL. -/
def c_str (s : Bytes) : Bytes := s.takeWhile (fun b => b != 0)

/-- The bytes of a string literal of the source whose text is ASCII. -/
def ascii (s : String) : Bytes := s.toList.map Char.toNat

/-- A continuation byte of UTF-8. -/
def is_cont (b : Nat) : Bool := 0x80 ≤ b && b < 0xC0

/-- The strict UTF-8 decoder of the host: sequences of one to four bytes, no
overlong form, no surrogate, nothing above U+10FFFF; `none` on any other
input. -/
def utf8_chars : Bytes → Option (List Char)
  | [] => some []
  | b0 :: bs =>
    if b0 < 0x80 then (utf8_chars bs).map (fun l => Char.ofNat b0 :: l)
    else if 0xC2 ≤ b0 && b0 < 0xE0 then
      match bs with
      | b1 :: bs1 =>
        if is_cont b1 then
          (utf8_chars bs1).map (fun l => Char.ofNat ((b0 - 0xC0) * 64 + (b1 - 0x80)) :: l)
        else none
      | _ => none
    else if 0xE0 ≤ b0 && b0 < 0xF0 then
      match bs with
      | b1 :: b2 :: bs2 =>
        let cp := (b0 - 0xE0) * 4096 + (b1 - 0x80) * 64 + (b2 - 0x80)
        if is_cont b1 && is_cont b2 && 0x800 ≤ cp && !(0xD800 ≤ cp && cp < 0xE000) then
          (utf8_chars bs2).map (fun l => Char.ofNat cp :: l)
        else none
      | _ => none
    else if 0xF0 ≤ b0 && b0 < 0xF5 then
      match bs with
      | b1 :: b2 :: b3 :: bs3 =>
        let cp := (b0 - 0xF0) * 262144 + (b1 - 0x80) * 4096 + (b2 - 0x80) * 64 + (b3 - 0x80)
        if is_cont b1 && is_cont b2 && is_cont b3 && 0x10000 ≤ cp && cp < 0x110000 then
          (utf8_chars bs3).map (fun l => Char.ofNat cp :: l)
        else none
      | _ => none
    else none

/-- The text of a whole byte string, when it is valid UTF-8. -/
def utf8_decode (s : Bytes) : Option String := (utf8_chars s).map String.mk

/-- The function `PyUnicode_FromString(u)` of the host, through which
`Py_BuildValue` with the format `s` and `PyErr_SetString` turn a C string into
a host string: the text of the bytes before the first NUL, `none` (NULL) when
they are not valid UTF-8. -/
def PyUnicode_FromString (u : Bytes) : Option String := utf8_decode (c_str u)

/-! ## Host (CPython) side -/

/-- The exception types of the host that `board.cpp` names, and any other one
(raised by host code such as a progress callback), identified by its name. -/
inductive PyExcType where
  | PyExc_IOError
  | PyExc_TypeError
  | host (name : String)
  deriving DecidableEq, Repr

/-- A raised host exception: its type and its message text. -/
structure PyErr where
  type : PyExcType
  msg : String
  deriving DecidableEq, Repr

/-- Behaviour of a host callable when it is called with one string: from the
strings it was called with before (oldest first) and the new one, either it
returns normally (`none`) or it raises (`some err`). -/
abbrev PyCallable := List String → String → Option PyErr

/-- A host object, as far as `board.cpp` observes one: whether it is a `dict`
(`PyDict_Type` check of the `O!` format), and what calling it does when
`PyCallable_Check` holds. `repr` identifies the value. -/
structure PyObject where
  repr : String
  is_dict : Bool
  call : Option PyCallable

/-- The object `Py_None`: neither a dict nor callable. -/
def Py_None : PyObject := ⟨"None", false, none⟩

/-- What the bridge can observe and change outside its own locals. -/
structure World where
  /-- the error indicator of the host interpreter -/
  err : Option PyErr
  /-- the strings the progress callback has been invoked with, oldest first -/
  calls : List String
  /-- the files written by exporters, oldest first -/
  files : List String
  deriving DecidableEq, Repr

/-- The world at the entry of a method call from the host: no pending error. -/
def World.init : World := ⟨none, [], []⟩

/-- The function `PyErr_SetObject(type, value)` of the host for a host string
`value`: the error of this type with this message becomes the pending one. -/
def PyErr_SetObject (type : PyExcType) (value : String) (w : World) : World :=
  { w with err := some ⟨type, value⟩ }

/-- The function `PyCallable_Check(o)`. -/
def PyCallable_Check (o : PyObject) : Bool := o.call.isSome

/-- The function `Py_BuildValue("(s)", u)`: the argument tuple that holds the
text of the C string `u`, or `none` (NULL) when the bytes of `u` are not valid
UTF-8. -/
def Py_BuildValue_s (u : Bytes) : Option String := PyUnicode_FromString u

/-- The function `PyObject_CallObject(callable, arglist)` for the argument
tuple `arglist` that holds the one string `s`: the result is `true` for a
non-NULL result and `false` for NULL, in which case the error indicator holds
what the callable raised. Calling an object that is not callable raises a type
error in the host; `PyBoard_export_step` has checked `PyCallable_Check`
before, so its progress hook never gets there. -/
def PyObject_CallObject (callable : PyObject) (s : String) (w : World) : World × Bool :=
  match callable.call with
  | none => (PyErr_SetObject .PyExc_TypeError "object is not callable" w, false)
  | some f =>
    match f w.calls s with
    | none => ({ w with calls := w.calls ++ [s] }, true)
    | some e => ({ w with calls := w.calls ++ [s], err := some e }, false)

/-! ## C++ side -/

/-- What code outside `board.cpp` can throw, as the handlers of `board.cpp`
tell it apart: something derived from `std::exception` with the C string of
its `what()`, a `PoDoFo::PdfError` with the C string of its `what()`, or
anything else. `PyBoard_export_pdf` has a handler for `PdfError` after the one
for `std::exception`, which is how a type that is not derived from
`std::exception` is caught. -/
inductive CppExc where
  | std_exception (what : Bytes)
  | PdfError (what : Bytes)
  | other
  deriving DecidableEq, Repr

/-- How the evaluation of the `try` block of `PyBoard_export_step` ends before
its last statement: by the `py_exception` of `board.cpp` itself (thrown only
by the progress hook), by an exception of the code it calls, or, in the
progress hook, by `Py_DECREF` of a null `arglist`, which no handler catches. -/
inductive Abort where
  | py_exception
  | cpp (e : CppExc)
  | null_deref
  deriving DecidableEq, Repr

/-- Modelled from the spec: one observable action of a running exporter, a
milestone string (a `std::string`) handed to the progress hook or a file
written. -/
inductive ExportStep where
  | progress (s : Bytes)
  | write (path : String)
  deriving DecidableEq, Repr

/-- Modelled from the spec: the exporters (`GerberExporter::generate`,
`export_pdf`, `export_PnP`, `export_step`) are not part of the sources at
hand. A run of an exporter is the sequence of its observable actions, a
milestone string handed to the progress hook or a file written, and how it
ends when every hook invocation returned: normally (`none`) or by throwing.
The hook returns nothing, so it can influence the run only by throwing, and
"if the callback itself fails, the export is aborted and that failure is
propagated": an exception of the hook ends the run at once. -/
structure ExporterRun where
  steps : List ExportStep
  outcome : Option CppExc
  deriving DecidableEq, Repr

/-- Modelled from the spec: the actions of a run, with `progress_cb` as the
progress hook, "invoked synchronously, once per milestone string". The first
invocation of the hook that does not return stops the run ("the export is
aborted") and is the result. -/
def run_steps (progress_cb : Bytes → World → World × Option Abort) :
    List ExportStep → World → World × Option Abort
  | [], w => (w, none)
  | .progress s :: rest, w =>
    match progress_cb s w with
    | (w1, some e) => (w1, some e)
    | (w1, none) => run_steps progress_cb rest w1
  | .write path :: rest, w =>
    run_steps progress_cb rest { w with files := w.files ++ [path] }

/-- Modelled from the spec: a whole run with a progress hook. -/
def ExporterRun.exec (r : ExporterRun) (progress_cb : Bytes → World → World × Option Abort)
    (w : World) : World × Option Abort :=
  match run_steps progress_cb r.steps w with
  | (w1, some e) => (w1, some e)
  | (w1, none) => (w1, r.outcome.map Abort.cpp)

/-- Modelled from the spec: the file writes of a run without a progress hook
(the exporter is given none, or a null one). -/
def plain_steps : List ExportStep → World → World
  | [], w => w
  | .progress _ :: rest, w => plain_steps rest w
  | .write path :: rest, w => plain_steps rest { w with files := w.files ++ [path] }

/-- Modelled from the spec: a whole run without a progress hook. -/
def ExporterRun.exec_plain (r : ExporterRun) (w : World) : World × Option CppExc :=
  (plain_steps r.steps w, r.outcome)

/-- The milestone strings of a list of actions, in order. -/
def milestones : List ExportStep → List Bytes
  | [] => []
  | .progress s :: rest => s :: milestones rest
  | .write _ :: rest => milestones rest

/-- The fields of `horizon::STEPExportSettings` that `board.cpp` reads
(`pfx` is the field `prefix`). -/
structure STEPExportSettings where
  filename : String
  include_3d_models : Bool
  pfx : String
  deriving DecidableEq, Repr

/-- The types of other translation units that `board.cpp` handles only as a
whole. -/
structure Carrier where
  json : Type
  Project : Type
  Pool : Type
  Block : Type
  ViaPadstackProvider : Type
  Board : Type
  FabOutputSettings : Type
  PDFExportSettings : Type
  PnPExportSettings : Type

/-- The functions of other translation units that `board.cpp` calls. A
function that can throw returns `Except CppExc`. -/
structure Externals (σ : Carrier) where
  /-- the message of the type error `PyArg_ParseTuple` raises on these arguments -/
  parse_error : List PyObject → String
  /-- the error that is pending after `PyErr_SetString(type, u)` when the bytes
  of `u` are not valid UTF-8 (it depends on the version of the host) -/
  PyErr_SetString_undecodable : PyExcType → Bytes → PyErr
  json_from_py : PyObject → Except CppExc σ.json
  py_from_json : σ.json → PyObject
  /-- The call `Pool(PoolManager::get().get_by_uuid(prj.pool_uuid)->base_path, prj.pool_cache_directory)` -/
  Pool_new : σ.Project → Except CppExc σ.Pool
  /-- The call `Block::new_from_file(prj.get_top_block().block_filename, pool)` -/
  Block_new_from_file : σ.Project → σ.Pool → Except CppExc σ.Block
  /-- The call `ViaPadstackProvider(prj.vias_directory, pool)` -/
  ViaPadstackProvider_new : σ.Project → σ.Pool → Except CppExc σ.ViaPadstackProvider
  /-- The call `Board::new_from_file(prj.board_filename, block, pool, vpp)` -/
  Board_new_from_file : σ.Project → σ.Block → σ.Pool → σ.ViaPadstackProvider → Except CppExc σ.Board
  expand : σ.Board → Except CppExc σ.Board
  update_planes : σ.Board → Except CppExc σ.Board
  fab_output_settings : σ.Board → σ.FabOutputSettings
  pdf_export_settings : σ.Board → σ.PDFExportSettings
  pnp_export_settings : σ.Board → σ.PnPExportSettings
  step_export_settings : σ.Board → STEPExportSettings
  FabOutputSettings_serialize : σ.FabOutputSettings → σ.json
  PDFExportSettings_serialize_board : σ.PDFExportSettings → σ.json
  PnPExportSettings_serialize : σ.PnPExportSettings → σ.json
  STEPExportSettings_serialize : STEPExportSettings → σ.json
  FabOutputSettings_new : σ.json → Except CppExc σ.FabOutputSettings
  PDFExportSettings_new : σ.json → Except CppExc σ.PDFExportSettings
  PnPExportSettings_new : σ.json → Except CppExc σ.PnPExportSettings
  STEPExportSettings_new : σ.json → Except CppExc STEPExportSettings
  /-- The call `GerberExporter ex(&board, &settings); ex.generate();` -/
  GerberExporter_generate : σ.Board → σ.FabOutputSettings → ExporterRun
  /-- The call `export_pdf(board, settings, nullptr)` -/
  export_pdf : σ.Board → σ.PDFExportSettings → ExporterRun
  /-- The call `export_PnP(board, settings)` -/
  export_PnP : σ.Board → σ.PnPExportSettings → ExporterRun
  /-- The call `export_step(filename, board, pool, include_models, progress_cb, nullptr, prefix)` -/
  export_step : String → σ.Board → σ.Pool → Bool → String → ExporterRun

/-- The members of `BoardWrapper`. -/
structure BoardWrapper (σ : Carrier) where
  pool : σ.Pool
  block : σ.Block
  vpp : σ.ViaPadstackProvider
  board : σ.Board

/-- The function `BoardWrapper::BoardWrapper(const horizon::Project &prj)`: the member
initializers in declaration order, then the constructor body. An exception of
any of them leaves the constructor. -/
def BoardWrapper.new {σ : Carrier} (x : Externals σ) (prj : σ.Project) :
    Except CppExc (BoardWrapper σ) :=
  match x.Pool_new prj with
  | .error e => .error e
  | .ok pool =>
    match x.Block_new_from_file prj pool with
    | .error e => .error e
    | .ok block =>
      match x.ViaPadstackProvider_new prj pool with
      | .error e => .error e
      | .ok vpp =>
        match x.Board_new_from_file prj block pool vpp with
        | .error e => .error e
        | .ok board =>
          match x.expand board with
          | .error e => .error e
          | .ok board1 =>
            match x.update_planes board1 with
            | .error e => .error e
            | .ok board2 => .ok ⟨pool, block, vpp, board2⟩

/-- The object `PyBoard`: `board` is a pointer to a `BoardWrapper`, `none`
when it is null. -/
structure PyBoard (σ : Carrier) where
  board : Option (BoardWrapper σ)

/-- The function `PyBoard_new`: the allocator of the type (`tp_new`), `none` when
`tp_alloc` fails. The new object has a null `board`. -/
def PyBoard_new (σ : Carrier) (alloc_ok : Bool) : Option (PyBoard σ) :=
  if alloc_ok then some ⟨none⟩ else none

/-- How a method of the bridge ends: it returns to the host (`result` is
`none` for NULL) in some world, or it dereferences a null pointer
(`self->board->board` with `self->board == nullptr`, or `Py_DECREF(arglist)`
with `arglist == NULL`), which is undefined behaviour and the end of what can
be said about the call. -/
inductive Ret where
  | ret (result : Option PyObject) (w : World)
  | null_deref

/-- The function `PyArg_ParseTuple(args, "O!", &PyDict_Type, &py_export_settings)`:
exactly one argument, a dict. -/
def PyArg_ParseTuple_dict (args : List PyObject) : Option PyObject :=
  match args with
  | [o] => if o.is_dict then some o else none
  | _ => none

/-- The function `PyArg_ParseTuple(args, "O!|O", &PyDict_Type, &py_export_settings, &py_callback)`:
a dict, and optionally one more object of any type, which stays null when it
is not given. -/
def PyArg_ParseTuple_dict_opt (args : List PyObject) : Option (PyObject × Option PyObject) :=
  match args with
  | [o] => if o.is_dict then some (o, none) else none
  | [o, cb] => if o.is_dict then some (o, some cb) else none
  | _ => none

/-- The failure of `PyArg_ParseTuple`: it has raised a type error, and the
method returns NULL. -/
def parse_failure {σ : Carrier} (x : Externals σ) (args : List PyObject) (w : World) : Ret :=
  .ret none (PyErr_SetObject .PyExc_TypeError (x.parse_error args) w)

/-- The function `PyErr_SetString(type, u)` of the host: the C string `u` is
decoded as UTF-8 and the error of this type with this text becomes the pending
one; when the bytes are not valid UTF-8 another error is pending afterwards,
not one of this type with this text. -/
def PyErr_SetString {σ : Carrier} (x : Externals σ) (type : PyExcType) (u : Bytes)
    (w : World) : World :=
  match PyUnicode_FromString u with
  | some text => PyErr_SetObject type text w
  | none => { w with err := some (x.PyErr_SetString_undecodable type u) }

/-- The handlers `catch (const std::exception &e)` and `catch (...)` of
`PyBoard_export_gerber` and `PyBoard_export_pnp`. -/
def catch_std_any {σ : Carrier} (x : Externals σ) (e : CppExc) (w : World) : Ret :=
  match e with
  | .std_exception what => .ret none (PyErr_SetString x .PyExc_IOError what w)
  | _ => .ret none (PyErr_SetString x .PyExc_IOError (ascii "unknown exception") w)

/-- The handlers `catch (const std::exception &e)`,
`catch (const PoDoFo::PdfError &e)` and `catch (...)` of `PyBoard_export_pdf`. -/
def catch_std_pdf_any {σ : Carrier} (x : Externals σ) (e : CppExc) (w : World) : Ret :=
  match e with
  | .std_exception what => .ret none (PyErr_SetString x .PyExc_IOError what w)
  | .PdfError what => .ret none (PyErr_SetString x .PyExc_IOError what w)
  | .other => .ret none (PyErr_SetString x .PyExc_IOError (ascii "unknown exception") w)

/-- The handlers `catch (const py_exception &e)`,
`catch (const std::exception &e)` and `catch (...)` of `PyBoard_export_step`.
A null dereference is not an exception: no handler applies to it. -/
def catch_py_std_any {σ : Carrier} (x : Externals σ) (e : Abort) (w : World) : Ret :=
  match e with
  | .py_exception => .ret none w
  | .cpp (.std_exception what) => .ret none (PyErr_SetString x .PyExc_IOError what w)
  | .cpp _ => .ret none (PyErr_SetString x .PyExc_IOError (ascii "unknown exception") w)
  | .null_deref => .null_deref

/-- The function `PyBoard_get_gerber_export_settings`. -/
def PyBoard_get_gerber_export_settings {σ : Carrier} (x : Externals σ) (self : PyBoard σ)
    (w : World) : Ret :=
  match self.board with
  | none => .null_deref
  | some bw =>
    let settings := x.FabOutputSettings_serialize (x.fab_output_settings bw.board)
    .ret (some (x.py_from_json settings)) w

/-- The function `PyBoard_get_pdf_export_settings`. -/
def PyBoard_get_pdf_export_settings {σ : Carrier} (x : Externals σ) (self : PyBoard σ)
    (w : World) : Ret :=
  match self.board with
  | none => .null_deref
  | some bw =>
    let settings := x.PDFExportSettings_serialize_board (x.pdf_export_settings bw.board)
    .ret (some (x.py_from_json settings)) w

/-- The function `PyBoard_get_pnp_export_settings`. -/
def PyBoard_get_pnp_export_settings {σ : Carrier} (x : Externals σ) (self : PyBoard σ)
    (w : World) : Ret :=
  match self.board with
  | none => .null_deref
  | some bw =>
    let settings := x.PnPExportSettings_serialize (x.pnp_export_settings bw.board)
    .ret (some (x.py_from_json settings)) w

/-- The function `PyBoard_get_step_export_settings`. -/
def PyBoard_get_step_export_settings {σ : Carrier} (x : Externals σ) (self : PyBoard σ)
    (w : World) : Ret :=
  match self.board with
  | none => .null_deref
  | some bw =>
    let settings := x.STEPExportSettings_serialize (x.step_export_settings bw.board)
    .ret (some (x.py_from_json settings)) w

/-- The function `PyBoard_export_gerber`. -/
def PyBoard_export_gerber {σ : Carrier} (x : Externals σ) (self : PyBoard σ)
    (args : List PyObject) (w : World) : Ret :=
  match PyArg_ParseTuple_dict args with
  | none => parse_failure x args w
  | some py_export_settings =>
    match x.json_from_py py_export_settings with
    | .error e => catch_std_any x e w
    | .ok settings_json =>
      match x.FabOutputSettings_new settings_json with
      | .error e => catch_std_any x e w
      | .ok settings =>
        match self.board with
        | none => .null_deref
        | some bw =>
          match (x.GerberExporter_generate bw.board settings).exec_plain w with
          | (w1, some e) => catch_std_any x e w1
          | (w1, none) => .ret (some Py_None) w1

/-- The function `PyBoard_export_pdf`. -/
def PyBoard_export_pdf {σ : Carrier} (x : Externals σ) (self : PyBoard σ)
    (args : List PyObject) (w : World) : Ret :=
  match PyArg_ParseTuple_dict args with
  | none => parse_failure x args w
  | some py_export_settings =>
    match x.json_from_py py_export_settings with
    | .error e => catch_std_pdf_any x e w
    | .ok settings_json =>
      match x.PDFExportSettings_new settings_json with
      | .error e => catch_std_pdf_any x e w
      | .ok settings =>
        match self.board with
        | none => .null_deref
        | some bw =>
          match (x.export_pdf bw.board settings).exec_plain w with
          | (w1, some e) => catch_std_pdf_any x e w1
          | (w1, none) => .ret (some Py_None) w1

/-- The function `PyBoard_export_pnp`. -/
def PyBoard_export_pnp {σ : Carrier} (x : Externals σ) (self : PyBoard σ)
    (args : List PyObject) (w : World) : Ret :=
  match PyArg_ParseTuple_dict args with
  | none => parse_failure x args w
  | some py_export_settings =>
    match x.json_from_py py_export_settings with
    | .error e => catch_std_any x e w
    | .ok settings_json =>
      match x.PnPExportSettings_new settings_json with
      | .error e => catch_std_any x e w
      | .ok settings =>
        match self.board with
        | none => .null_deref
        | some bw =>
          match (x.export_PnP bw.board settings).exec_plain w with
          | (w1, some e) => catch_std_any x e w1
          | (w1, none) => .ret (some Py_None) w1

/-- The lambda `[py_callback](const std::string &s)` that `PyBoard_export_step`
hands to the exporter as its progress hook. With a callback, `arglist` is
`Py_BuildValue("(s)", s.c_str())`, which the lambda does not test. When it is
NULL, `PyObject_CallObject(py_callback, NULL)` calls the callback without
arguments and, whatever the callback does, `Py_DECREF(arglist)` then
dereferences the null pointer. Otherwise the callback is called with the text
of the C string, and a NULL result makes the lambda throw `py_exception`. -/
def progress_cb (py_callback : Option PyObject) (s : Bytes) (w : World) :
    World × Option Abort :=
  match py_callback with
  | none => (w, none)
  | some cb =>
    match Py_BuildValue_s (c_str s) with
    | none => (w, some .null_deref)
    | some arglist =>
      match PyObject_CallObject cb arglist w with
      | (w1, false) => (w1, some .py_exception)
      | (w1, true) => (w1, none)

/-- The function `PyBoard_export_step`. -/
def PyBoard_export_step {σ : Carrier} (x : Externals σ) (self : PyBoard σ)
    (args : List PyObject) (w : World) : Ret :=
  match PyArg_ParseTuple_dict_opt args with
  | none => parse_failure x args w
  | some (py_export_settings, py_callback) =>
    if py_callback.isSome && !(py_callback.any PyCallable_Check) then
      .ret none (PyErr_SetString x .PyExc_TypeError (ascii "callback must be callable") w)
    else
      match x.json_from_py py_export_settings with
      | .error e => catch_py_std_any x (.cpp e) w
      | .ok settings_json =>
        match x.STEPExportSettings_new settings_json with
        | .error e => catch_py_std_any x (.cpp e) w
        | .ok settings =>
          match self.board with
          | none => .null_deref
          | some bw =>
            match (x.export_step settings.filename bw.board bw.pool settings.include_3d_models
                settings.pfx).exec (progress_cb py_callback) w with
            | (w1, some e) => catch_py_std_any x e w1
            | (w1, none) => .ret (some Py_None) w1

/-! ## The dimension tool (`tool_draw_dimension.hpp`)

The header declares the class, its two private data members with their
initial values, and the enumeration of its states. The bodies of `begin` and
`update` are in a translation unit that is not at hand.
-/

/-- The enumeration `ToolDrawDimension::State`. -/
inductive State where
  | P0
  | P1
  | LABEL
  deriving DecidableEq, Repr

/-- Modelled from the spec: a coordinate of the document (an anchor point or
a raw pointer position). -/
structure Coord where
  x : Int
  y : Int
  deriving DecidableEq, Repr

/-- Modelled from the spec: the class `Dimension` is not part of the sources
at hand. "Identity (unique id), geometric anchor points (P0, P1), a
label/annotation". -/
structure Dimension where
  uuid : Nat
  p0 : Coord
  p1 : Coord
  label : Coord
  deriving DecidableEq, Repr

/-- Modelled from the spec: the document model is not part of the sources at
hand. It "owns drawable entities keyed by identity"; here the committed
dimensions, oldest first. -/
structure Document where
  dimensions : List Dimension
  deriving DecidableEq, Repr

/-- Modelled from the spec: the constraint mode of the restriction helper
(`tool_helper_restrict.hpp` is not at hand): no constraint, or an axis lock. -/
inductive RestrictMode where
  | arbitrary
  | horizontal
  | vertical
  deriving DecidableEq, Repr

/-- Modelled from the spec: the restriction helper, "a pure function of (raw
input, active constraint mode, reference point)". With the horizontal lock the
output has the vertical coordinate of the reference point, with the vertical
lock its horizontal coordinate. -/
def get_coord_restrict (mode : RestrictMode) (ref raw : Coord) : Coord :=
  match mode with
  | .arbitrary => raw
  | .horizontal => ⟨raw.x, ref.y⟩
  | .vertical => ⟨ref.x, raw.y⟩

/-- Modelled from the spec: the user command that toggles the constraint
mode. -/
def RestrictMode.toggle : RestrictMode → RestrictMode
  | .arbitrary => .horizontal
  | .horizontal => .vertical
  | .vertical => .arbitrary

/-- Modelled from the spec: the kinds of input event `update` consumes,
"pointer move, click, key press, escape". -/
inductive ToolEventType where
  | move
  | click
  | key
  | cancel
  deriving DecidableEq, Repr

/-- Modelled from the spec: `ToolArgs` (`core/tool.hpp` is not at hand), an
input event with the raw pointer position. -/
structure ToolArgs where
  type : ToolEventType
  coords : Coord
  deriving DecidableEq, Repr

/-- Modelled from the spec: `ToolResponse`, "one of {awaiting-input, complete,
aborted}". -/
inductive ToolResponse where
  | awaiting_input
  | complete
  | aborted
  deriving DecidableEq, Repr

/-- The data members of `ToolDrawDimension`: `temp`, the in-progress entity
(`none` for `nullptr`), and `state`; and the constraint mode of its base
`ToolHelperRestrict`. -/
structure ToolDrawDimension where
  temp : Option Dimension
  state : State
  restrict_mode : RestrictMode
  deriving DecidableEq, Repr

/-- The constructor `ToolDrawDimension(IDocument *c, ToolID tid)` with the
default member initializers of the header: `temp = nullptr`,
`state = State::P0`. -/
def ToolDrawDimension.new : ToolDrawDimension := ⟨none, .P0, .arbitrary⟩

/-- Modelled from the spec: the body of `ToolDrawDimension::begin` is not part
of the sources at hand. It "constructs the in-progress entity from the initial
pointer position; transitions to `P1`; returns a response indicating awaiting
more input". The identity of the new entity is the number of dimensions in the
document. -/
def ToolDrawDimension.begin (t : ToolDrawDimension) (doc : Document) (args : ToolArgs) :
    ToolResponse × ToolDrawDimension :=
  (.awaiting_input,
    { t with temp := some ⟨doc.dimensions.length, args.coords, args.coords, args.coords⟩,
             state := .P1 })

/-- Modelled from the spec: the body of `ToolDrawDimension::update` is not part
of the sources at hand. On a pointer move the pending anchor (state `P1`) or
the label (state `LABEL`) follows the constrained position. A click in `P1`
fixes the second anchor and transitions to `LABEL`; a click in `LABEL` commits
the entity to the document and the tool is complete. A cancel in any state
discards the entity and the tool is aborted. A key press toggles the
constraint mode. On commit and on cancel the tool releases the entity. A call
before `begin` (state `P0`, no entity) violates the precondition: `none`. -/
def ToolDrawDimension.update (t : ToolDrawDimension) (doc : Document) (args : ToolArgs) :
    Option (ToolResponse × ToolDrawDimension × Document) :=
  match t.state, t.temp with
  | .P0, _ => none
  | _, none => none
  | .P1, some d =>
    match args.type with
    | .move =>
      some (.awaiting_input,
        { t with temp := some { d with p1 := get_coord_restrict t.restrict_mode d.p0 args.coords } },
        doc)
    | .click =>
      some (.awaiting_input,
        { t with temp := some { d with p1 := get_coord_restrict t.restrict_mode d.p0 args.coords },
                 state := .LABEL },
        doc)
    | .key => some (.awaiting_input, { t with restrict_mode := t.restrict_mode.toggle }, doc)
    | .cancel => some (.aborted, { t with temp := none }, doc)
  | .LABEL, some d =>
    match args.type with
    | .move => some (.awaiting_input, { t with temp := some { d with label := args.coords } }, doc)
    | .click => some (.complete, { t with temp := none }, ⟨doc.dimensions ++ [d]⟩)
    | .key => some (.awaiting_input, { t with restrict_mode := t.restrict_mode.toggle }, doc)
    | .cancel => some (.aborted, { t with temp := none }, doc)

/-- Modelled from the spec: the tool dispatch that owns the tool (outside the
sources at hand). A session is a live tool with the document, or it has ended
with the response that ended it: the states "`P0` → `P1` → `LABEL` → terminal
(commit or cancel, implicit)". -/
inductive Session where
  | live (t : ToolDrawDimension) (doc : Document)
  | ended (r : ToolResponse) (doc : Document)
  deriving DecidableEq, Repr

/-- The position of a session in the order `P0`, `P1`, `LABEL`, terminal of
the spec. -/
def Session.rank : Session → Nat
  | .live t _ =>
    match t.state with
    | .P0 => 0
    | .P1 => 1
    | .LABEL => 2
  | .ended _ _ => 3

/-- The session a new tool starts in. -/
def Session.start (doc : Document) : Session := .live ToolDrawDimension.new doc

/-- Modelled from the spec: the dispatch of `begin` to a session, `none` when
the tool is not live. -/
def Session.begin (s : Session) (args : ToolArgs) : Option Session :=
  match s with
  | .ended _ _ => none
  | .live t doc =>
    match t.begin doc args with
    | (.awaiting_input, t1) => some (.live t1 doc)
    | (r, _) => some (.ended r doc)

/-- Modelled from the spec: the dispatch of one `update` to a session, `none`
when the tool is not live or the call violates the precondition of `update`.
A response other than awaiting-input ends the session. -/
def Session.update (s : Session) (args : ToolArgs) : Option Session :=
  match s with
  | .ended _ _ => none
  | .live t doc =>
    match t.update doc args with
    | none => none
    | some (.awaiting_input, t1, doc1) => some (.live t1 doc1)
    | some (r, _, doc1) => some (.ended r doc1)

/-- Modelled from the spec: the delivery of a sequence of `update` calls to a
session, in order. Events after the end of the session are not delivered;
`none` when a call violates the precondition of `update`. -/
def deliver : Session → List ToolArgs → Option Session
  | s, [] => some s
  | .ended r doc, _ :: _ => some (.ended r doc)
  | .live t doc, a :: rest =>
    match (Session.live t doc).update a with
    | none => none
    | some s1 => deliver s1 rest

/-- The session a new tool on document `doc` is in after `begin a0` followed
by the `update` calls `evs`. -/
def run (doc : Document) (a0 : ToolArgs) (evs : List ToolArgs) : Option Session :=
  match (Session.start doc).begin a0 with
  | none => none
  | some s1 => deliver s1 evs

/-- The tool of a live session has begun and owns an in-progress entity. -/
def Session.begun : Session → Prop
  | .live t _ => t.state ≠ .P0 ∧ t.temp.isSome = true
  | .ended _ _ => True

/-! ## Statements about the settings record of a call -/

/-- The settings record `d` fails deserialization with exception `e`: the
conversion `json_from_py` throws it, or the constructor `ctor` of the typed
settings object does. -/
def deser_fails {J S : Type} (json_from_py : PyObject → Except CppExc J)
    (ctor : J → Except CppExc S) (d : PyObject) (e : CppExc) : Prop :=
  json_from_py d = .error e ∨ ∃ j, json_from_py d = .ok j ∧ ctor j = .error e

/-- The settings record `d` deserializes into the typed settings object `s`. -/
def deser_ok {J S : Type} (json_from_py : PyObject → Except CppExc J)
    (ctor : J → Except CppExc S) (d : PyObject) (s : S) : Prop :=
  ∃ j, json_from_py d = .ok j ∧ ctor j = .ok s

/-- The call throws `e` in its `try` block while no progress hook is involved:
the record fails deserialization with `e`, or it deserializes and the run of
the exporter on the typed settings ends by throwing `e`. -/
def throws {J S : Type} (json_from_py : PyObject → Except CppExc J)
    (ctor : J → Except CppExc S) (run : S → ExporterRun) (d : PyObject) (e : CppExc) : Prop :=
  deser_fails json_from_py ctor d e
    ∨ ∃ s, deser_ok json_from_py ctor d s ∧ (run s).outcome = some e

/-- Nothing is thrown in the `try` block of the call: the record deserializes
and the run of the exporter ends normally. -/
def completes {J S : Type} (json_from_py : PyObject → Except CppExc J)
    (ctor : J → Except CppExc S) (run : S → ExporterRun) (d : PyObject) : Prop :=
  ∃ s, deser_ok json_from_py ctor d s ∧ (run s).outcome = none

/-- The method returns NULL to the host with `e` as the pending host error. -/
def Ret.fails_with (r : Ret) (e : PyErr) : Prop :=
  ∃ w, r = .ret none w ∧ w.err = some e

/-- The method returns `None` to the host and leaves the error indicator as
it was in `w0`. -/
def Ret.returns_None (r : Ret) (w0 : World) : Prop :=
  ∃ w, r = .ret (some Py_None) w ∧ w.err = w0.err

/-- The arguments of `export_step`: the record, and the callback when there
is one. -/
def step_args (d : PyObject) (cb : Option PyObject) : List PyObject :=
  match cb with
  | none => [d]
  | some c => [d, c]

/-- A carrier with small types. -/
abbrev sample_carrier : Carrier where
  json := Nat
  Project := String
  Pool := Unit
  Block := Unit
  ViaPadstackProvider := Unit
  Board := List String
  FabOutputSettings := Nat
  PDFExportSettings := Nat
  PnPExportSettings := Nat

/-- A run that reports three milestones around two file writes. -/
def sample_run : ExporterRun :=
  ⟨[.progress (ascii "outline"), .write "board.step", .progress (ascii "packages"),
    .write "board.step", .progress (ascii "done")], none⟩

/-- A run whose first milestone holds a NUL byte: the bytes of `ab`, NUL,
`cd`. -/
def sample_nul_run : ExporterRun :=
  ⟨[.progress [97, 98, 0, 99, 100], .progress (ascii "packages"), .progress (ascii "done")],
    none⟩

/-- A run whose first milestone is not valid UTF-8: a name in Latin-1, the
bytes of `mod`, 0xE8, `le`. -/
def sample_latin1_run : ExporterRun :=
  ⟨[.progress [109, 111, 100, 232, 108, 101], .write "board.step"], none⟩

/-- Sample externals: a record whose text is empty converts to JSON `0`, on
which every settings constructor throws; the exporters write one file, and the
STEP exporter does the run `step_run`. After `PyErr_SetString` on bytes that
are not valid UTF-8 a `UnicodeDecodeError` is pending (its message is
shortened here). -/
def sample_externals_with (step_run : ExporterRun) : Externals sample_carrier where
  parse_error := fun _ => "bad arguments"
  PyErr_SetString_undecodable := fun _ _ => ⟨.host "UnicodeDecodeError", "invalid utf-8"⟩
  json_from_py := fun o => .ok o.repr.length
  py_from_json := fun j => ⟨toString j, true, none⟩
  Pool_new := fun _ => .ok ()
  Block_new_from_file := fun _ _ => .ok ()
  ViaPadstackProvider_new := fun _ _ => .ok ()
  Board_new_from_file := fun prj _ _ _ => .ok [prj]
  expand := fun b => .ok (b ++ ["expanded"])
  update_planes := fun b => .ok (b ++ ["planes"])
  fab_output_settings := fun b => b.length
  pdf_export_settings := fun b => b.length
  pnp_export_settings := fun b => b.length
  step_export_settings := fun _ => ⟨"board.step", true, ""⟩
  FabOutputSettings_serialize := fun s => s
  PDFExportSettings_serialize_board := fun s => s
  PnPExportSettings_serialize := fun s => s
  STEPExportSettings_serialize := fun s => s.filename.length
  FabOutputSettings_new := fun j =>
    match j with
    | 0 => .error (.std_exception (ascii "key not found"))
    | n + 1 => .ok n
  PDFExportSettings_new := fun j =>
    match j with
    | 0 => .error (.std_exception (ascii "key not found"))
    | n + 1 => .ok n
  PnPExportSettings_new := fun j =>
    match j with
    | 0 => .error (.std_exception (ascii "key not found"))
    | n + 1 => .ok n
  STEPExportSettings_new := fun j =>
    match j with
    | 0 => .error (.std_exception (ascii "key not found"))
    | _ + 1 => .ok ⟨"board.step", true, ""⟩
  GerberExporter_generate := fun _ _ => ⟨[.write "board.gbr"], none⟩
  export_pdf := fun _ _ =>
    ⟨[.write "board.pdf"], some (.PdfError (ascii "ePdfError_InvalidHandle"))⟩
  export_PnP := fun _ _ => ⟨[.write "pnp.csv"], some (.std_exception (ascii "disk full"))⟩
  export_step := fun _ _ _ _ _ => step_run

/-- Sample externals whose STEP exporter does the run `sample_run`. -/
def sample_externals : Externals sample_carrier := sample_externals_with sample_run

/-- A settings record that deserializes. -/
def sample_dict : PyObject := ⟨"settings", true, none⟩

/-- A callable that raises `ValueError("stop")` on its second invocation. -/
def sample_callback : PyObject :=
  ⟨"<function cb>", false,
    some (fun before _ => if before.length = 1 then some ⟨.host "ValueError", "stop"⟩ else none)⟩

/-- A callable that raises `ValueError("stop")` on every invocation. -/
def sample_raising_callback : PyObject :=
  ⟨"<function cb>", false, some (fun _ _ => some ⟨.host "ValueError", "stop"⟩)⟩

/-- A handle that holds a board. -/
def sample_board : PyBoard sample_carrier := ⟨some ⟨(), (), (), ["prj", "expanded", "planes"]⟩⟩

/-! ## Theorems -/

/-- The C string of a C string is this C string. -/
theorem c_str_c_str (s : Bytes) : c_str (c_str s) = c_str s := by
  induction s with
  | nil => rfl
  | cons b s ih =>
    by_cases hb : (b != 0) = true
    · simp only [c_str, List.takeWhile_cons, hb, if_true] at ih ⊢
      rw [ih]
    · simp [c_str, List.takeWhile_cons, hb]

/-- The host reads a C string up to its first NUL. -/
theorem PyUnicode_FromString_c_str (s : Bytes) :
    PyUnicode_FromString (c_str s) = PyUnicode_FromString s := by
  simp [PyUnicode_FromString, c_str_c_str]

/-- The function `PyErr_SetString` on a C string that is valid UTF-8. -/
theorem PyErr_SetString_of_text {σ : Carrier} (x : Externals σ) (type : PyExcType) (u : Bytes)
    (text : String) (w : World) (h : PyUnicode_FromString u = some text) :
    PyErr_SetString x type u w = PyErr_SetObject type text w := by
  simp [PyErr_SetString, h]

/-- The function `PyErr_SetString` on the literal of the last handlers. -/
theorem PyErr_SetString_unknown_exception {σ : Carrier} (x : Externals σ) (type : PyExcType)
    (w : World) :
    PyErr_SetString x type (ascii "unknown exception") w
      = PyErr_SetObject type "unknown exception" w :=
  PyErr_SetString_of_text x type _ _ w (by decide)

/-- The function `PyErr_SetString` on the literal of the callback check. -/
theorem PyErr_SetString_callback_must_be_callable {σ : Carrier} (x : Externals σ)
    (type : PyExcType) (w : World) :
    PyErr_SetString x type (ascii "callback must be callable") w
      = PyErr_SetObject type "callback must be callable" w :=
  PyErr_SetString_of_text x type _ _ w (by decide)

/-- The function `PyErr_SetString` changes nothing but the error indicator. -/
theorem PyErr_SetString_frame {σ : Carrier} (x : Externals σ) (type : PyExcType) (u : Bytes)
    (w : World) :
    (PyErr_SetString x type u w).calls = w.calls ∧ (PyErr_SetString x type u w).files = w.files := by
  unfold PyErr_SetString
  split <;> exact ⟨rfl, rfl⟩

/-- A run without a progress hook leaves the error indicator alone. -/
theorem plain_steps_err (steps : List ExportStep) (w : World) :
    (plain_steps steps w).err = w.err := by
  induction steps generalizing w with
  | nil => rfl
  | cons a rest ih =>
    cases a with
    | progress s => simpa [plain_steps] using ih w
    | write path => simpa [plain_steps] using ih _

/-- A run without a progress hook invokes no callback. -/
theorem plain_steps_calls (steps : List ExportStep) (w : World) :
    (plain_steps steps w).calls = w.calls := by
  induction steps generalizing w with
  | nil => rfl
  | cons a rest ih =>
    cases a with
    | progress s => simpa [plain_steps] using ih w
    | write path => simpa [plain_steps] using ih _

/-- The handlers of `export_gerber` and `export_pnp` return NULL and change
nothing but the error indicator: an I/O error with the text of the exception
when it is derived from `std::exception` and its text is valid UTF-8, the I/O
error "unknown exception" when it is not derived from `std::exception`. -/
theorem catch_std_any_spec {σ : Carrier} (x : Externals σ) (e : CppExc) (w : World) :
    ∃ w1, catch_std_any x e w = .ret none w1 ∧ w1.calls = w.calls ∧ w1.files = w.files
      ∧ (∀ t m, e = .std_exception t → PyUnicode_FromString t = some m →
          w1.err = some ⟨.PyExc_IOError, m⟩)
      ∧ ((∀ t, e ≠ .std_exception t) → w1.err = some ⟨.PyExc_IOError, "unknown exception"⟩) := by
  cases e with
  | std_exception t =>
    refine ⟨_, rfl, (PyErr_SetString_frame x _ t w).1, (PyErr_SetString_frame x _ t w).2, ?_,
      fun h => absurd rfl (h t)⟩
    intro t1 m h hm
    cases h
    rw [PyErr_SetString_of_text x _ t m w hm]
    rfl
  | PdfError t =>
    refine ⟨_, rfl, (PyErr_SetString_frame x _ _ w).1, (PyErr_SetString_frame x _ _ w).2,
      fun t1 m h => CppExc.noConfusion h, fun _ => ?_⟩
    rw [PyErr_SetString_unknown_exception]
    rfl
  | other =>
    refine ⟨_, rfl, (PyErr_SetString_frame x _ _ w).1, (PyErr_SetString_frame x _ _ w).2,
      fun t1 m h => CppExc.noConfusion h, fun _ => ?_⟩
    rw [PyErr_SetString_unknown_exception]
    rfl

/-- The handlers of `export_pdf` return NULL and change nothing but the error
indicator: an I/O error with the text of the exception when it is derived from
`std::exception` or is a `PdfError` and its text is valid UTF-8, the I/O error
"unknown exception" when it is neither. -/
theorem catch_std_pdf_any_spec {σ : Carrier} (x : Externals σ) (e : CppExc) (w : World) :
    ∃ w1, catch_std_pdf_any x e w = .ret none w1 ∧ w1.calls = w.calls ∧ w1.files = w.files
      ∧ (∀ t m, e = .std_exception t ∨ e = .PdfError t → PyUnicode_FromString t = some m →
          w1.err = some ⟨.PyExc_IOError, m⟩)
      ∧ (e = .other → w1.err = some ⟨.PyExc_IOError, "unknown exception"⟩) := by
  cases e with
  | std_exception t =>
    refine ⟨_, rfl, (PyErr_SetString_frame x _ t w).1, (PyErr_SetString_frame x _ t w).2, ?_,
      fun h => CppExc.noConfusion h⟩
    rintro t1 m (h | h) hm
    · cases h
      rw [PyErr_SetString_of_text x _ t m w hm]
      rfl
    · cases h
  | PdfError t =>
    refine ⟨_, rfl, (PyErr_SetString_frame x _ t w).1, (PyErr_SetString_frame x _ t w).2, ?_,
      fun h => CppExc.noConfusion h⟩
    rintro t1 m (h | h) hm
    · cases h
    · cases h
      rw [PyErr_SetString_of_text x _ t m w hm]
      rfl
  | other =>
    refine ⟨_, rfl, (PyErr_SetString_frame x _ _ w).1, (PyErr_SetString_frame x _ _ w).2, ?_,
      fun _ => ?_⟩
    · rintro t1 m (h | h) <;> cases h
    · rw [PyErr_SetString_unknown_exception]
      rfl

/-- The method `export_gerber` when the record fails deserialization. -/
theorem export_gerber_of_deser_fails {σ : Carrier} (x : Externals σ) (self : PyBoard σ)
    (d : PyObject) (e : CppExc) (w : World) (hd : d.is_dict = true)
    (h : deser_fails x.json_from_py x.FabOutputSettings_new d e) :
    PyBoard_export_gerber x self [d] w = catch_std_any x e w := by
  rcases h with h | ⟨j, hj, h⟩ <;> simp [PyBoard_export_gerber, PyArg_ParseTuple_dict, hd, *]

/-- The method `export_pdf` when the record fails deserialization. -/
theorem export_pdf_of_deser_fails {σ : Carrier} (x : Externals σ) (self : PyBoard σ)
    (d : PyObject) (e : CppExc) (w : World) (hd : d.is_dict = true)
    (h : deser_fails x.json_from_py x.PDFExportSettings_new d e) :
    PyBoard_export_pdf x self [d] w = catch_std_pdf_any x e w := by
  rcases h with h | ⟨j, hj, h⟩ <;> simp [PyBoard_export_pdf, PyArg_ParseTuple_dict, hd, *]

/-- The method `export_pnp` when the record fails deserialization. -/
theorem export_pnp_of_deser_fails {σ : Carrier} (x : Externals σ) (self : PyBoard σ)
    (d : PyObject) (e : CppExc) (w : World) (hd : d.is_dict = true)
    (h : deser_fails x.json_from_py x.PnPExportSettings_new d e) :
    PyBoard_export_pnp x self [d] w = catch_std_any x e w := by
  rcases h with h | ⟨j, hj, h⟩ <;> simp [PyBoard_export_pnp, PyArg_ParseTuple_dict, hd, *]

/-- The parse of the arguments of `export_step`. -/
theorem parse_step_args (d : PyObject) (cb : Option PyObject) (hd : d.is_dict = true) :
    PyArg_ParseTuple_dict_opt (step_args d cb) = some (d, cb) := by
  cases cb <;> simp [step_args, PyArg_ParseTuple_dict_opt, hd]

/-- The method `export_gerber` when the record deserializes. -/
theorem export_gerber_of_deser_ok {σ : Carrier} (x : Externals σ) (bw : BoardWrapper σ)
    (d : PyObject) (s : σ.FabOutputSettings) (w : World) (hd : d.is_dict = true)
    (h : deser_ok x.json_from_py x.FabOutputSettings_new d s) :
    PyBoard_export_gerber x ⟨some bw⟩ [d] w =
      match (x.GerberExporter_generate bw.board s).exec_plain w with
      | (w1, some e) => catch_std_any x e w1
      | (w1, none) => .ret (some Py_None) w1 := by
  obtain ⟨j, hj, hs⟩ := h
  simp [PyBoard_export_gerber, PyArg_ParseTuple_dict, hd, hj, hs]

/-- The method `export_pdf` when the record deserializes. -/
theorem export_pdf_of_deser_ok {σ : Carrier} (x : Externals σ) (bw : BoardWrapper σ)
    (d : PyObject) (s : σ.PDFExportSettings) (w : World) (hd : d.is_dict = true)
    (h : deser_ok x.json_from_py x.PDFExportSettings_new d s) :
    PyBoard_export_pdf x ⟨some bw⟩ [d] w =
      match (x.export_pdf bw.board s).exec_plain w with
      | (w1, some e) => catch_std_pdf_any x e w1
      | (w1, none) => .ret (some Py_None) w1 := by
  obtain ⟨j, hj, hs⟩ := h
  simp [PyBoard_export_pdf, PyArg_ParseTuple_dict, hd, hj, hs]

/-- The method `export_pnp` when the record deserializes. -/
theorem export_pnp_of_deser_ok {σ : Carrier} (x : Externals σ) (bw : BoardWrapper σ)
    (d : PyObject) (s : σ.PnPExportSettings) (w : World) (hd : d.is_dict = true)
    (h : deser_ok x.json_from_py x.PnPExportSettings_new d s) :
    PyBoard_export_pnp x ⟨some bw⟩ [d] w =
      match (x.export_PnP bw.board s).exec_plain w with
      | (w1, some e) => catch_std_any x e w1
      | (w1, none) => .ret (some Py_None) w1 := by
  obtain ⟨j, hj, hs⟩ := h
  simp [PyBoard_export_pnp, PyArg_ParseTuple_dict, hd, hj, hs]

/-- The method `export_step` when the record deserializes and the callback, if
there is one, is callable. -/
theorem export_step_of_deser_ok {σ : Carrier} (x : Externals σ) (bw : BoardWrapper σ)
    (d : PyObject) (cb : Option PyObject) (s : STEPExportSettings) (w : World)
    (hd : d.is_dict = true) (hcb : ∀ c, cb = some c → PyCallable_Check c = true)
    (h : deser_ok x.json_from_py x.STEPExportSettings_new d s) :
    PyBoard_export_step x ⟨some bw⟩ (step_args d cb) w =
      match (x.export_step s.filename bw.board bw.pool s.include_3d_models s.pfx).exec
          (progress_cb cb) w with
      | (w1, some e) => catch_py_std_any x e w1
      | (w1, none) => .ret (some Py_None) w1 := by
  have hg : (cb.isSome && !(cb.any PyCallable_Check)) = false := by
    cases cb with
    | none => rfl
    | some c => simp [hcb c rfl]
  obtain ⟨j, hj, hs⟩ := h
  simp [PyBoard_export_step, parse_step_args d cb hd, hg, hj, hs]

/-- A getter on a handle that holds a board returns the serialization of the
settings of this board and leaves the world as it is. -/
theorem get_export_settings_of_board {σ : Carrier} (x : Externals σ) (bw : BoardWrapper σ)
    (w : World) :
    PyBoard_get_gerber_export_settings x ⟨some bw⟩ w
        = .ret (some (x.py_from_json (x.FabOutputSettings_serialize (x.fab_output_settings bw.board)))) w
      ∧ PyBoard_get_pdf_export_settings x ⟨some bw⟩ w
        = .ret (some (x.py_from_json (x.PDFExportSettings_serialize_board (x.pdf_export_settings bw.board)))) w
      ∧ PyBoard_get_pnp_export_settings x ⟨some bw⟩ w
        = .ret (some (x.py_from_json (x.PnPExportSettings_serialize (x.pnp_export_settings bw.board)))) w
      ∧ PyBoard_get_step_export_settings x ⟨some bw⟩ w
        = .ret (some (x.py_from_json (x.STEPExportSettings_serialize (x.step_export_settings bw.board)))) w :=
  ⟨rfl, rfl, rfl, rfl⟩

/-- C5: the allocator of the type gives the host a handle whose `board` is
null, and on this handle each of the four getters dereferences the null
pointer instead of returning a settings record. -/
theorem get_export_settings_null_board {σ : Carrier} (x : Externals σ) (w : World) :
    PyBoard_new σ true = some ⟨none⟩
      ∧ PyBoard_get_gerber_export_settings x ⟨none⟩ w = .null_deref
      ∧ PyBoard_get_pdf_export_settings x ⟨none⟩ w = .null_deref
      ∧ PyBoard_get_pnp_export_settings x ⟨none⟩ w = .null_deref
      ∧ PyBoard_get_step_export_settings x ⟨none⟩ w = .null_deref :=
  ⟨rfl, rfl, rfl, rfl, rfl⟩

/-- C10: a call of `export_step` with a settings dict and a second argument
that is not callable returns NULL with the type error "callback must be
callable" as the only change of the world, whatever the deserializer and the
exporter would do; and the progress hook built without a callback returns
without any effect and without throwing for every milestone string. -/
theorem export_step_callback_must_be_callable {σ : Carrier} (x : Externals σ) (self : PyBoard σ)
    (d cb : PyObject) (w : World) (hd : d.is_dict = true) (hcb : PyCallable_Check cb = false) :
    PyBoard_export_step x self [d, cb] w
        = .ret none (PyErr_SetObject .PyExc_TypeError "callback must be callable" w)
      ∧ (PyErr_SetObject .PyExc_TypeError "callback must be callable" w).files = w.files
      ∧ (PyErr_SetObject .PyExc_TypeError "callback must be callable" w).calls = w.calls
      ∧ ∀ (s : Bytes) (w0 : World), progress_cb none s w0 = (w0, none) := by
  refine ⟨?_, rfl, rfl, fun _ _ => rfl⟩
  simp [PyBoard_export_step, PyArg_ParseTuple_dict_opt, hd, hcb,
    PyErr_SetString_callback_must_be_callable]

/-- Witness of C10 with `None` passed as the callback. -/
theorem export_step_callback_must_be_callable_witness :
    PyBoard_export_step sample_externals sample_board [sample_dict, Py_None] World.init
        = .ret none (PyErr_SetObject .PyExc_TypeError "callback must be callable" World.init)
      ∧ (PyErr_SetObject .PyExc_TypeError "callback must be callable" World.init).files
        = World.init.files
      ∧ (PyErr_SetObject .PyExc_TypeError "callback must be callable" World.init).calls
        = World.init.calls
      ∧ ∀ (s : Bytes) (w0 : World), progress_cb none s w0 = (w0, none) :=
  export_step_callback_must_be_callable sample_externals sample_board sample_dict Py_None
    World.init rfl rfl

/-- C9: when the constructor of `BoardWrapper` returns, its board is the
loaded board after `expand` and then `update_planes`, and each export through
a handle on it hands exactly this board to the exporter. -/
theorem BoardWrapper_new_expanded {σ : Carrier} (x : Externals σ) (prj : σ.Project)
    (bw : BoardWrapper σ) (h : BoardWrapper.new x prj = .ok bw) :
    (∃ b0 b1, x.Board_new_from_file prj bw.block bw.pool bw.vpp = .ok b0
        ∧ x.expand b0 = .ok b1 ∧ x.update_planes b1 = .ok bw.board)
      ∧ (∀ d s w, d.is_dict = true →
          deser_ok x.json_from_py x.FabOutputSettings_new d s →
          PyBoard_export_gerber x ⟨some bw⟩ [d] w =
            match (x.GerberExporter_generate bw.board s).exec_plain w with
            | (w1, some e) => catch_std_any x e w1
            | (w1, none) => .ret (some Py_None) w1)
      ∧ (∀ d s w, d.is_dict = true →
          deser_ok x.json_from_py x.PDFExportSettings_new d s →
          PyBoard_export_pdf x ⟨some bw⟩ [d] w =
            match (x.export_pdf bw.board s).exec_plain w with
            | (w1, some e) => catch_std_pdf_any x e w1
            | (w1, none) => .ret (some Py_None) w1)
      ∧ (∀ d s w, d.is_dict = true →
          deser_ok x.json_from_py x.PnPExportSettings_new d s →
          PyBoard_export_pnp x ⟨some bw⟩ [d] w =
            match (x.export_PnP bw.board s).exec_plain w with
            | (w1, some e) => catch_std_any x e w1
            | (w1, none) => .ret (some Py_None) w1)
      ∧ (∀ d cb s w, d.is_dict = true → (∀ c, cb = some c → PyCallable_Check c = true) →
          deser_ok x.json_from_py x.STEPExportSettings_new d s →
          PyBoard_export_step x ⟨some bw⟩ (step_args d cb) w =
            match (x.export_step s.filename bw.board bw.pool s.include_3d_models s.pfx).exec
                (progress_cb cb) w with
            | (w1, some e) => catch_py_std_any x e w1
            | (w1, none) => .ret (some Py_None) w1) := by
  refine ⟨?_, fun d s w hd hs => export_gerber_of_deser_ok x bw d s w hd hs,
    fun d s w hd hs => export_pdf_of_deser_ok x bw d s w hd hs,
    fun d s w hd hs => export_pnp_of_deser_ok x bw d s w hd hs,
    fun d cb s w hd hcb hs => export_step_of_deser_ok x bw d cb s w hd hcb hs⟩
  unfold BoardWrapper.new at h
  cases h1 : x.Pool_new prj with
  | error e => simp [h1] at h
  | ok pool =>
    cases h2 : x.Block_new_from_file prj pool with
    | error e => simp [h1, h2] at h
    | ok block =>
      cases h3 : x.ViaPadstackProvider_new prj pool with
      | error e => simp [h1, h2, h3] at h
      | ok vpp =>
        cases h4 : x.Board_new_from_file prj block pool vpp with
        | error e => simp [h1, h2, h3, h4] at h
        | ok b0 =>
          cases h5 : x.expand b0 with
          | error e => simp [h1, h2, h3, h4, h5] at h
          | ok b1 =>
            cases h6 : x.update_planes b1 with
            | error e => simp [h1, h2, h3, h4, h5, h6] at h
            | ok b2 =>
              simp [h1, h2, h3, h4, h5, h6] at h
              subst h
              exact ⟨b0, b1, h4, h5, h6⟩

/-- Witness of C9 on the sample project. -/
theorem BoardWrapper_new_expanded_witness :
    BoardWrapper.new sample_externals "prj" = .ok ⟨(), (), (), ["prj", "expanded", "planes"]⟩
      ∧ ∃ b0 b1, sample_externals.Board_new_from_file "prj" () () () = .ok b0
        ∧ sample_externals.expand b0 = .ok b1
        ∧ sample_externals.update_planes b1 = .ok ["prj", "expanded", "planes"] :=
  ⟨rfl, (BoardWrapper_new_expanded sample_externals "prj"
    ⟨(), (), (), ["prj", "expanded", "planes"]⟩ rfl).1⟩

/-- The method `export_gerber` when something is thrown in its `try` block:
the result is that of its handlers, in the world at the throw. -/
theorem export_gerber_of_throws {σ : Carrier} (x : Externals σ) (bw : BoardWrapper σ)
    (d : PyObject) (e : CppExc) (w : World) (hd : d.is_dict = true)
    (h : throws x.json_from_py x.FabOutputSettings_new (x.GerberExporter_generate bw.board) d e) :
    ∃ w0, PyBoard_export_gerber x ⟨some bw⟩ [d] w = catch_std_any x e w0 := by
  rcases h with h | ⟨s, hs, ho⟩
  · exact ⟨w, export_gerber_of_deser_fails x _ d e w hd h⟩
  · exact ⟨plain_steps (x.GerberExporter_generate bw.board s).steps w, by
      rw [export_gerber_of_deser_ok x bw d s w hd hs]; simp [ExporterRun.exec_plain, ho]⟩

/-- The method `export_pdf` when something is thrown in its `try` block. -/
theorem export_pdf_of_throws {σ : Carrier} (x : Externals σ) (bw : BoardWrapper σ)
    (d : PyObject) (e : CppExc) (w : World) (hd : d.is_dict = true)
    (h : throws x.json_from_py x.PDFExportSettings_new (x.export_pdf bw.board) d e) :
    ∃ w0, PyBoard_export_pdf x ⟨some bw⟩ [d] w = catch_std_pdf_any x e w0 := by
  rcases h with h | ⟨s, hs, ho⟩
  · exact ⟨w, export_pdf_of_deser_fails x _ d e w hd h⟩
  · exact ⟨plain_steps (x.export_pdf bw.board s).steps w, by
      rw [export_pdf_of_deser_ok x bw d s w hd hs]; simp [ExporterRun.exec_plain, ho]⟩

/-- The method `export_pnp` when something is thrown in its `try` block. -/
theorem export_pnp_of_throws {σ : Carrier} (x : Externals σ) (bw : BoardWrapper σ)
    (d : PyObject) (e : CppExc) (w : World) (hd : d.is_dict = true)
    (h : throws x.json_from_py x.PnPExportSettings_new (x.export_PnP bw.board) d e) :
    ∃ w0, PyBoard_export_pnp x ⟨some bw⟩ [d] w = catch_std_any x e w0 := by
  rcases h with h | ⟨s, hs, ho⟩
  · exact ⟨w, export_pnp_of_deser_fails x _ d e w hd h⟩
  · exact ⟨plain_steps (x.export_PnP bw.board s).steps w, by
      rw [export_pnp_of_deser_ok x bw d s w hd hs]; simp [ExporterRun.exec_plain, ho]⟩

/-- The method `export_gerber` when nothing is thrown. -/
theorem export_gerber_of_completes {σ : Carrier} (x : Externals σ) (bw : BoardWrapper σ)
    (d : PyObject) (w : World) (hd : d.is_dict = true)
    (h : completes x.json_from_py x.FabOutputSettings_new (x.GerberExporter_generate bw.board) d) :
    (PyBoard_export_gerber x ⟨some bw⟩ [d] w).returns_None w := by
  obtain ⟨s, hs, ho⟩ := h
  refine ⟨plain_steps (x.GerberExporter_generate bw.board s).steps w, ?_, plain_steps_err _ w⟩
  rw [export_gerber_of_deser_ok x bw d s w hd hs]; simp [ExporterRun.exec_plain, ho]

/-- The method `export_pdf` when nothing is thrown. -/
theorem export_pdf_of_completes {σ : Carrier} (x : Externals σ) (bw : BoardWrapper σ)
    (d : PyObject) (w : World) (hd : d.is_dict = true)
    (h : completes x.json_from_py x.PDFExportSettings_new (x.export_pdf bw.board) d) :
    (PyBoard_export_pdf x ⟨some bw⟩ [d] w).returns_None w := by
  obtain ⟨s, hs, ho⟩ := h
  refine ⟨plain_steps (x.export_pdf bw.board s).steps w, ?_, plain_steps_err _ w⟩
  rw [export_pdf_of_deser_ok x bw d s w hd hs]; simp [ExporterRun.exec_plain, ho]

/-- The method `export_pnp` when nothing is thrown. -/
theorem export_pnp_of_completes {σ : Carrier} (x : Externals σ) (bw : BoardWrapper σ)
    (d : PyObject) (w : World) (hd : d.is_dict = true)
    (h : completes x.json_from_py x.PnPExportSettings_new (x.export_PnP bw.board) d) :
    (PyBoard_export_pnp x ⟨some bw⟩ [d] w).returns_None w := by
  obtain ⟨s, hs, ho⟩ := h
  refine ⟨plain_steps (x.export_PnP bw.board s).steps w, ?_, plain_steps_err _ w⟩
  rw [export_pnp_of_deser_ok x bw d s w hd hs]; simp [ExporterRun.exec_plain, ho]

/-- C8, as amended: `export_gerber`, `export_pdf` and `export_pnp` called with
one dict through a handle that holds a board. A standard exception from the
deserialization or the exporter whose `what()` is valid UTF-8 with text `m`
gives the I/O error with message `m`; in `export_pdf` so does a `PdfError`
whose `what()` is valid UTF-8 with text `m`; any other exception gives the I/O
error "unknown exception"; and when nothing is thrown the method returns
`None` and raises nothing. -/
theorem export_plain_outcomes {σ : Carrier} (x : Externals σ) (bw : BoardWrapper σ)
    (d : PyObject) (w : World) (hd : d.is_dict = true) :
    ((∀ t m, throws x.json_from_py x.FabOutputSettings_new (x.GerberExporter_generate bw.board) d
            (.std_exception t) → PyUnicode_FromString t = some m →
          (PyBoard_export_gerber x ⟨some bw⟩ [d] w).fails_with ⟨.PyExc_IOError, m⟩)
        ∧ (∀ e, (∀ t, e ≠ .std_exception t) →
          throws x.json_from_py x.FabOutputSettings_new (x.GerberExporter_generate bw.board) d e →
          (PyBoard_export_gerber x ⟨some bw⟩ [d] w).fails_with
            ⟨.PyExc_IOError, "unknown exception"⟩)
        ∧ (completes x.json_from_py x.FabOutputSettings_new (x.GerberExporter_generate bw.board) d →
          (PyBoard_export_gerber x ⟨some bw⟩ [d] w).returns_None w))
      ∧ ((∀ t m, throws x.json_from_py x.PDFExportSettings_new (x.export_pdf bw.board) d
            (.std_exception t) → PyUnicode_FromString t = some m →
          (PyBoard_export_pdf x ⟨some bw⟩ [d] w).fails_with ⟨.PyExc_IOError, m⟩)
        ∧ (∀ t m, throws x.json_from_py x.PDFExportSettings_new (x.export_pdf bw.board) d
            (.PdfError t) → PyUnicode_FromString t = some m →
          (PyBoard_export_pdf x ⟨some bw⟩ [d] w).fails_with ⟨.PyExc_IOError, m⟩)
        ∧ (throws x.json_from_py x.PDFExportSettings_new (x.export_pdf bw.board) d .other →
          (PyBoard_export_pdf x ⟨some bw⟩ [d] w).fails_with
            ⟨.PyExc_IOError, "unknown exception"⟩)
        ∧ (completes x.json_from_py x.PDFExportSettings_new (x.export_pdf bw.board) d →
          (PyBoard_export_pdf x ⟨some bw⟩ [d] w).returns_None w))
      ∧ ((∀ t m, throws x.json_from_py x.PnPExportSettings_new (x.export_PnP bw.board) d
            (.std_exception t) → PyUnicode_FromString t = some m →
          (PyBoard_export_pnp x ⟨some bw⟩ [d] w).fails_with ⟨.PyExc_IOError, m⟩)
        ∧ (∀ e, (∀ t, e ≠ .std_exception t) →
          throws x.json_from_py x.PnPExportSettings_new (x.export_PnP bw.board) d e →
          (PyBoard_export_pnp x ⟨some bw⟩ [d] w).fails_with
            ⟨.PyExc_IOError, "unknown exception"⟩)
        ∧ (completes x.json_from_py x.PnPExportSettings_new (x.export_PnP bw.board) d →
          (PyBoard_export_pnp x ⟨some bw⟩ [d] w).returns_None w)) := by
  refine ⟨⟨fun t m h hm => ?_, fun e he h => ?_, export_gerber_of_completes x bw d w hd⟩,
    ⟨fun t m h hm => ?_, fun t m h hm => ?_, fun h => ?_, export_pdf_of_completes x bw d w hd⟩,
    ⟨fun t m h hm => ?_, fun e he h => ?_, export_pnp_of_completes x bw d w hd⟩⟩
  · obtain ⟨w0, h0⟩ := export_gerber_of_throws x bw d _ w hd h
    obtain ⟨w1, h1, -, -, ht, -⟩ := catch_std_any_spec x (.std_exception t) w0
    exact ⟨w1, h0.trans h1, ht t m rfl hm⟩
  · obtain ⟨w0, h0⟩ := export_gerber_of_throws x bw d _ w hd h
    obtain ⟨w1, h1, -, -, -, hn⟩ := catch_std_any_spec x e w0
    exact ⟨w1, h0.trans h1, hn he⟩
  · obtain ⟨w0, h0⟩ := export_pdf_of_throws x bw d _ w hd h
    obtain ⟨w1, h1, -, -, ht, -⟩ := catch_std_pdf_any_spec x (.std_exception t) w0
    exact ⟨w1, h0.trans h1, ht t m (Or.inl rfl) hm⟩
  · obtain ⟨w0, h0⟩ := export_pdf_of_throws x bw d _ w hd h
    obtain ⟨w1, h1, -, -, ht, -⟩ := catch_std_pdf_any_spec x (.PdfError t) w0
    exact ⟨w1, h0.trans h1, ht t m (Or.inr rfl) hm⟩
  · obtain ⟨w0, h0⟩ := export_pdf_of_throws x bw d _ w hd h
    obtain ⟨w1, h1, -, -, -, hn⟩ := catch_std_pdf_any_spec x .other w0
    exact ⟨w1, h0.trans h1, hn rfl⟩
  · obtain ⟨w0, h0⟩ := export_pnp_of_throws x bw d _ w hd h
    obtain ⟨w1, h1, -, -, ht, -⟩ := catch_std_any_spec x (.std_exception t) w0
    exact ⟨w1, h0.trans h1, ht t m rfl hm⟩
  · obtain ⟨w0, h0⟩ := export_pnp_of_throws x bw d _ w hd h
    obtain ⟨w1, h1, -, -, -, hn⟩ := catch_std_any_spec x e w0
    exact ⟨w1, h0.trans h1, hn he⟩

/-- Witness of C8, as amended: the sample exporters, of which the one of
`export_pnp` throws a standard exception and the one of `export_gerber`
returns. -/
theorem export_plain_outcomes_witness :
    sample_dict.is_dict = true
      ∧ PyUnicode_FromString (ascii "disk full") = some "disk full"
      ∧ (PyBoard_export_pnp sample_externals sample_board [sample_dict] World.init).fails_with
          ⟨.PyExc_IOError, "disk full"⟩
      ∧ (PyBoard_export_gerber sample_externals sample_board [sample_dict]
          World.init).returns_None World.init :=
  ⟨rfl, by decide,
    (export_plain_outcomes sample_externals ⟨(), (), (), ["prj", "expanded", "planes"]⟩
      sample_dict World.init rfl).2.2.1 (ascii "disk full") "disk full"
      (Or.inr ⟨7, ⟨8, rfl, rfl⟩, rfl⟩) (by decide),
    (export_plain_outcomes sample_externals ⟨(), (), (), ["prj", "expanded", "planes"]⟩
      sample_dict World.init rfl).1.2.2 ⟨7, ⟨8, rfl, rfl⟩, rfl⟩⟩

/-- C8, counterexample: in `export_pdf` the exporter throws a `PdfError`,
which is not a standard exception, and the message of the I/O error is the
text of the `PdfError`, not "unknown exception". -/
theorem export_pdf_PdfError_message :
    throws sample_externals.json_from_py sample_externals.PDFExportSettings_new
        (sample_externals.export_pdf ["prj", "expanded", "planes"]) sample_dict
        (.PdfError (ascii "ePdfError_InvalidHandle"))
      ∧ (∀ t, CppExc.PdfError (ascii "ePdfError_InvalidHandle") ≠ .std_exception t)
      ∧ PyBoard_export_pdf sample_externals sample_board [sample_dict] World.init
        = .ret none ⟨some ⟨.PyExc_IOError, "ePdfError_InvalidHandle"⟩, [], ["board.pdf"]⟩
      ∧ ¬ (PyBoard_export_pdf sample_externals sample_board [sample_dict] World.init).fails_with
          ⟨.PyExc_IOError, "unknown exception"⟩ := by
  refine ⟨Or.inr ⟨7, ⟨8, rfl, rfl⟩, rfl⟩, fun m h => CppExc.noConfusion h, rfl, ?_⟩
  rintro ⟨w, hw, he⟩
  have h0 : PyBoard_export_pdf sample_externals sample_board [sample_dict] World.init
      = .ret none ⟨some ⟨.PyExc_IOError, "ePdfError_InvalidHandle"⟩, [], ["board.pdf"]⟩ := rfl
  rw [h0] at hw
  injection hw with _ hw
  subst hw
  revert he
  decide

/-- The actions of a run up to some point, then the rest. -/
theorem run_steps_append (hook : Bytes → World → World × Option Abort)
    (pre rest : List ExportStep) (w : World) :
    run_steps hook (pre ++ rest) w =
      match run_steps hook pre w with
      | (w1, some e) => (w1, some e)
      | (w1, none) => run_steps hook rest w1 := by
  induction pre generalizing w with
  | nil => rfl
  | cons a pre ih =>
    cases a with
    | progress s =>
      simp only [List.cons_append, run_steps]
      rcases hook s w with ⟨w1, _ | e⟩
      · exact ih w1
      · rfl
    | write path =>
      simp only [List.cons_append, run_steps]
      exact ih _

/-- The progress hook on a milestone whose C string has the text `t`, on
which the callback raises. -/
theorem progress_cb_of_raise (cb : PyObject) (f : PyCallable) (m : Bytes) (t : String)
    (e : PyErr) (w : World) (hf : cb.call = some f) (ht : PyUnicode_FromString m = some t)
    (he : f w.calls t = some e) :
    progress_cb (some cb) m w
      = ({ w with calls := w.calls ++ [t], err := some e }, some .py_exception) := by
  simp [progress_cb, Py_BuildValue_s, PyUnicode_FromString_c_str, ht, PyObject_CallObject, hf, he]

/-- The progress hook on a milestone whose C string has the text `t`, on
which the callback returns. -/
theorem progress_cb_of_return (cb : PyObject) (f : PyCallable) (m : Bytes) (t : String)
    (w : World) (hf : cb.call = some f) (ht : PyUnicode_FromString m = some t)
    (he : f w.calls t = none) :
    progress_cb (some cb) m w = ({ w with calls := w.calls ++ [t] }, none) := by
  simp [progress_cb, Py_BuildValue_s, PyUnicode_FromString_c_str, ht, PyObject_CallObject, hf, he]

/-- The progress hook with a callback on a milestone whose C string is not
valid UTF-8: the null `arglist` is dereferenced. -/
theorem progress_cb_of_undecodable (cb : PyObject) (m : Bytes) (w : World)
    (ht : PyUnicode_FromString m = none) :
    progress_cb (some cb) m w = (w, some .null_deref) := by
  simp [progress_cb, Py_BuildValue_s, PyUnicode_FromString_c_str, ht]

/-- A run whose first milestone makes the callback raise: the callback is
invoked once and the run stops there with the `py_exception` of the hook. -/
theorem run_steps_first_raises (cb : PyObject) (f : PyCallable) (m : Bytes) (t : String)
    (e : PyErr) (hf : cb.call = some f) (ht : PyUnicode_FromString m = some t)
    (steps : List ExportStep) (rest : List Bytes) (w : World)
    (hm : milestones steps = m :: rest) (he : f w.calls t = some e) :
    ∃ w1, run_steps (progress_cb (some cb)) steps w = (w1, some .py_exception)
      ∧ w1.calls = w.calls ++ [t] ∧ w1.err = some e := by
  induction steps generalizing w with
  | nil => simp [milestones] at hm
  | cons a steps ih =>
    cases a with
    | progress s =>
      simp only [milestones, List.cons.injEq] at hm
      obtain ⟨rfl, -⟩ := hm
      exact ⟨{ w with calls := w.calls ++ [t], err := some e }, by
        simp [run_steps, progress_cb_of_raise cb f s t e w hf ht he], rfl, rfl⟩
    | write path =>
      simp only [milestones] at hm
      simpa [run_steps] using ih { w with files := w.files ++ [path] } hm he

/-- A run whose first milestone the callback accepts and whose second one
makes it raise: the callback is invoked twice and the run stops there. -/
theorem run_steps_second_raises (cb : PyObject) (f : PyCallable) (m1 m2 : Bytes)
    (t1 t2 : String) (e : PyErr) (hf : cb.call = some f)
    (ht1 : PyUnicode_FromString m1 = some t1) (ht2 : PyUnicode_FromString m2 = some t2)
    (steps : List ExportStep) (rest : List Bytes) (w : World)
    (hm : milestones steps = m1 :: m2 :: rest) (h1 : f w.calls t1 = none)
    (h2 : f (w.calls ++ [t1]) t2 = some e) :
    ∃ w1, run_steps (progress_cb (some cb)) steps w = (w1, some .py_exception)
      ∧ w1.calls = w.calls ++ [t1, t2] ∧ w1.err = some e := by
  induction steps generalizing w with
  | nil => simp [milestones] at hm
  | cons a steps ih =>
    cases a with
    | progress s =>
      simp only [milestones, List.cons.injEq] at hm
      obtain ⟨rfl, hm⟩ := hm
      obtain ⟨w1, hw1, hc, herr⟩ := run_steps_first_raises cb f m2 t2 e hf ht2 steps rest
        { w with calls := w.calls ++ [t1] } hm h2
      refine ⟨w1, ?_, ?_, herr⟩
      · simp [run_steps, progress_cb_of_return cb f s t1 w hf ht1 h1, hw1]
      · simpa using hc
    | write path =>
      simp only [milestones] at hm
      simpa [run_steps] using ih { w with files := w.files ++ [path] } hm h1 h2

/-- A callable object passes the callback check of `export_step`. -/
theorem callable_of_call (cb : PyObject) (f : PyCallable) (hf : cb.call = some f) :
    ∀ c, some cb = some c → PyCallable_Check c = true := by
  intro c hc
  cases hc
  simp [PyCallable_Check, hf]

/-- The method `export_step` when the run of the exporter reaches, after the
actions `pre` during which every invocation of the hook returned, a milestone
`m` whose C string is not valid UTF-8: with any callable callback the call
ends in the dereference of the null `arglist`. -/
theorem export_step_of_undecodable_milestone {σ : Carrier} (x : Externals σ)
    (bw : BoardWrapper σ) (d cb : PyObject) (f : PyCallable) (s : STEPExportSettings)
    (pre post : List ExportStep) (m : Bytes) (w w1 : World) (hd : d.is_dict = true)
    (hf : cb.call = some f) (hs : deser_ok x.json_from_py x.STEPExportSettings_new d s)
    (hrun : (x.export_step s.filename bw.board bw.pool s.include_3d_models s.pfx).steps
      = pre ++ .progress m :: post)
    (hpre : run_steps (progress_cb (some cb)) pre w = (w1, none))
    (ht : PyUnicode_FromString m = none) :
    PyBoard_export_step x ⟨some bw⟩ [d, cb] w = .null_deref := by
  have h := export_step_of_deser_ok x bw d (some cb) s w hd (callable_of_call cb f hf) hs
  simp only [step_args] at h
  rw [h]
  simp [ExporterRun.exec, hrun, run_steps_append, hpre, run_steps,
    progress_cb_of_undecodable cb m w1 ht, catch_py_std_any]

/-- C2: a call of `export_step` with a callback that raises `ValueError` on
every invocation. When the milestone is valid UTF-8 the method returns NULL
with this `ValueError` pending, as the claim says. When the first milestone of
the exporter is not valid UTF-8 (the bytes of `mod`, 0xE8, `le`), the
unchecked `arglist` is NULL and the call ends in the dereference of this null
pointer: the failure of the callback is not propagated. -/
theorem export_step_undecodable_milestone_null_deref :
    PyBoard_export_step sample_externals sample_board [sample_dict, sample_raising_callback]
        World.init
        = .ret none ⟨some ⟨.host "ValueError", "stop"⟩, ["outline"], []⟩
      ∧ PyUnicode_FromString [109, 111, 100, 232, 108, 101] = none
      ∧ PyBoard_export_step (sample_externals_with sample_latin1_run) sample_board
          [sample_dict, sample_raising_callback] World.init
        = .null_deref :=
  ⟨rfl, by decide, rfl⟩

/-- C3, as amended: in a call of `export_step` whose exporter would report the
milestones `m1`, `m2` and then `rest`, where the C strings of `m1` and `m2`
(their bytes before the first NUL) are valid UTF-8 with the texts `t1` and
`t2`, with a callable callback that returns on its first invocation and raises
on its second, the method returns NULL and the callback has been invoked
exactly twice, with `t1` and then `t2`. -/
theorem export_step_aborts_at_second_milestone {σ : Carrier} (x : Externals σ)
    (bw : BoardWrapper σ) (d cb : PyObject) (f : PyCallable) (s : STEPExportSettings)
    (m1 m2 : Bytes) (rest : List Bytes) (t1 t2 : String) (e : PyErr) (w : World)
    (hd : d.is_dict = true) (hf : cb.call = some f)
    (hs : deser_ok x.json_from_py x.STEPExportSettings_new d s)
    (hm : milestones (x.export_step s.filename bw.board bw.pool s.include_3d_models s.pfx).steps
      = m1 :: m2 :: rest)
    (ht1 : PyUnicode_FromString m1 = some t1) (ht2 : PyUnicode_FromString m2 = some t2)
    (h1 : f w.calls t1 = none) (h2 : f (w.calls ++ [t1]) t2 = some e) :
    ∃ w1, PyBoard_export_step x ⟨some bw⟩ [d, cb] w = .ret none w1
      ∧ w1.calls = w.calls ++ [t1, t2] ∧ w1.err = some e := by
  have h := export_step_of_deser_ok x bw d (some cb) s w hd (callable_of_call cb f hf) hs
  simp only [step_args] at h
  obtain ⟨w1, hw1, hc, herr⟩ :=
    run_steps_second_raises cb f m1 m2 t1 t2 e hf ht1 ht2 _ rest w hm h1 h2
  refine ⟨w1, ?_, hc, herr⟩
  rw [h]
  simp [ExporterRun.exec, hw1, catch_py_std_any]

/-- Witness of C3, as amended: the sample run reports three milestones and the
sample callback raises on its second invocation. -/
theorem export_step_aborts_at_second_milestone_witness :
    milestones sample_run.steps = [ascii "outline", ascii "packages", ascii "done"]
      ∧ PyUnicode_FromString (ascii "outline") = some "outline"
      ∧ PyUnicode_FromString (ascii "packages") = some "packages"
      ∧ ∃ w1, PyBoard_export_step sample_externals sample_board [sample_dict, sample_callback]
          World.init = .ret none w1
        ∧ w1.calls = World.init.calls ++ ["outline", "packages"]
        ∧ w1.err = some ⟨.host "ValueError", "stop"⟩ :=
  ⟨rfl, by decide, by decide, export_step_aborts_at_second_milestone sample_externals
    ⟨(), (), (), ["prj", "expanded", "planes"]⟩ sample_dict sample_callback
    (fun before _ => if before.length = 1 then some ⟨.host "ValueError", "stop"⟩ else none)
    ⟨"board.step", true, ""⟩ (ascii "outline") (ascii "packages") [ascii "done"]
    "outline" "packages" ⟨.host "ValueError", "stop"⟩
    World.init rfl rfl ⟨8, rfl, rfl⟩ rfl (by decide) (by decide) rfl rfl⟩

/-- C3, counterexample: the first milestone of the run is the string of the
five bytes `ab`, NUL, `cd`. The callback returns on its first invocation and
raises on its second, and it has been invoked with `ab` and `packages`: the
first invocation was not with the first milestone string but with its part
before the NUL. -/
theorem export_step_milestone_cut_at_NUL :
    milestones sample_nul_run.steps = [[97, 98, 0, 99, 100], ascii "packages", ascii "done"]
      ∧ utf8_decode [97, 98, 0, 99, 100] = some "ab\x00cd"
      ∧ PyBoard_export_step (sample_externals_with sample_nul_run) sample_board
          [sample_dict, sample_callback] World.init
        = .ret none ⟨some ⟨.host "ValueError", "stop"⟩, ["ab", "packages"], []⟩
      ∧ ["ab", "packages"] ≠ ["ab\x00cd", "packages"] :=
  ⟨rfl, by decide, rfl, by decide⟩

/-- After `begin` the new tool is live in state `P1` with its entity. -/
theorem begin_start (doc : Document) (a0 : ToolArgs) :
    (Session.start doc).begin a0
      = some (.live ⟨some ⟨doc.dimensions.length, a0.coords, a0.coords, a0.coords⟩, .P1,
          .arbitrary⟩ doc) :=
  rfl

/-- One `update` on a live session that has begun: the call is defined, the
session after it has begun or has ended, and its position is the same, or one
further on a click, or terminal on a cancel; a cancel always ends it. -/
theorem update_of_begun (t : ToolDrawDimension) (doc : Document) (a : ToolArgs)
    (h : (Session.live t doc).begun) :
    ∃ s1, (Session.live t doc).update a = some s1 ∧ s1.begun
      ∧ (s1.rank = (Session.live t doc).rank
        ∨ (s1.rank = (Session.live t doc).rank + 1 ∧ a.type = .click)
        ∨ (s1.rank = 3 ∧ a.type = .cancel))
      ∧ (a.type = .cancel → s1.rank = 3) := by
  obtain ⟨temp, state, mode⟩ := t
  obtain ⟨type, coords⟩ := a
  obtain ⟨h0, h1⟩ := h
  cases temp with
  | none => simp at h1
  | some dim =>
    cases state with
    | P0 => exact absurd rfl h0
    | P1 =>
      cases type <;>
        simp [Session.update, ToolDrawDimension.update, Session.begun, Session.rank]
    | LABEL =>
      cases type <;>
        simp [Session.update, ToolDrawDimension.update, Session.begun, Session.rank]

/-- The delivery of a sequence of `update` calls to a session that has begun
is defined and ends in a session that has begun or has ended, at the same
position or further. -/
theorem deliver_of_begun (evs : List ToolArgs) (s : Session) (h : s.begun) :
    ∃ s1, deliver s evs = some s1 ∧ s1.begun ∧ s.rank ≤ s1.rank := by
  induction evs generalizing s with
  | nil => exact ⟨s, by cases s <;> rfl, h, le_refl _⟩
  | cons a evs ih =>
    cases s with
    | ended r doc => exact ⟨_, rfl, h, le_refl _⟩
    | live t doc =>
      obtain ⟨s1, hs1, hb, hr, -⟩ := update_of_begun t doc a h
      obtain ⟨s2, hs2, hb2, hr2⟩ := ih s1 hb
      refine ⟨s2, by simp [deliver, hs1, hs2], hb2, ?_⟩
      rcases hr with hr | ⟨hr, -⟩ | ⟨hr, -⟩
      · omega
      · omega
      · have : (Session.live t doc).rank ≤ 3 := by
          simp only [Session.rank]
          split <;> omega
        omega

/-- The delivery of a sequence and then one more call. -/
theorem deliver_append (evs : List ToolArgs) (a : ToolArgs) (s : Session) :
    deliver s (evs ++ [a]) = (deliver s evs).bind (fun s1 => deliver s1 [a]) := by
  induction evs generalizing s with
  | nil => cases s <;> rfl
  | cons b evs ih =>
    cases s with
    | ended r doc => rfl
    | live t doc =>
      simp only [List.cons_append, deliver]
      cases (Session.live t doc).update b with
      | none => rfl
      | some s1 => exact ih s1

/-- C6: a new tool is at `P0` and `begin` takes it to `P1`. After `begin` and
any sequence `evs` of `update` calls the session is defined and at `P1` or
later, and one more `update` call `a` leaves it where it is, or takes it one
position further in the order `P1`, `LABEL`, terminal (on a click), or ends it
(on a cancel); a cancel ends it from any position. The position never goes
back. -/
theorem tool_state_advances (doc : Document) (a0 : ToolArgs) (evs : List ToolArgs)
    (a : ToolArgs) :
    (Session.start doc).rank = 0
      ∧ (run doc a0 []).map Session.rank = some 1
      ∧ ∃ s s1, run doc a0 evs = some s ∧ run doc a0 (evs ++ [a]) = some s1
        ∧ 1 ≤ s.rank
        ∧ (s1.rank = s.rank ∨ (s1.rank = s.rank + 1 ∧ a.type = .click)
          ∨ (s1.rank = 3 ∧ a.type = .cancel))
        ∧ (a.type = .cancel → s1.rank = 3) := by
  refine ⟨rfl, rfl, ?_⟩
  have hb : (Session.live ⟨some ⟨doc.dimensions.length, a0.coords, a0.coords, a0.coords⟩, .P1,
      .arbitrary⟩ doc).begun := ⟨fun h => State.noConfusion h, rfl⟩
  obtain ⟨s, hs, hsb, hr⟩ := deliver_of_begun evs _ hb
  have hrun : ∀ l, run doc a0 l = deliver (Session.live
      ⟨some ⟨doc.dimensions.length, a0.coords, a0.coords, a0.coords⟩, .P1, .arbitrary⟩ doc) l :=
    fun l => by simp [run, begin_start]
  cases s with
  | ended r doc1 =>
    refine ⟨_, .ended r doc1, (hrun evs).trans hs, ?_, hr, Or.inl rfl, fun _ => rfl⟩
    rw [hrun, deliver_append, hs]
    rfl
  | live t doc1 =>
    obtain ⟨s1, hs1, -, hstep, hc⟩ := update_of_begun t doc1 a hsb
    refine ⟨_, s1, (hrun evs).trans hs, ?_, hr, hstep, hc⟩
    rw [hrun, deliver_append, hs]
    simp only [Option.bind, deliver, hs1]

/-- Witness of C6: a move, a click and then a cancel, which ends the session
from `LABEL`. -/
theorem tool_state_advances_witness :
    (run ⟨[]⟩ ⟨.click, ⟨0, 0⟩⟩ [⟨.move, ⟨5, 1⟩⟩, ⟨.click, ⟨5, 1⟩⟩]).map Session.rank = some 2
      ∧ ∃ s s1, run ⟨[]⟩ ⟨.click, ⟨0, 0⟩⟩ [⟨.move, ⟨5, 1⟩⟩, ⟨.click, ⟨5, 1⟩⟩] = some s
        ∧ run ⟨[]⟩ ⟨.click, ⟨0, 0⟩⟩ ([⟨.move, ⟨5, 1⟩⟩, ⟨.click, ⟨5, 1⟩⟩] ++ [⟨.cancel, ⟨5, 1⟩⟩])
          = some s1
        ∧ 1 ≤ s.rank
        ∧ (s1.rank = s.rank ∨ (s1.rank = s.rank + 1 ∧ ToolEventType.cancel = .click)
          ∨ (s1.rank = 3 ∧ ToolEventType.cancel = .cancel))
        ∧ (ToolEventType.cancel = .cancel → s1.rank = 3) :=
  ⟨rfl, (tool_state_advances ⟨[]⟩ ⟨.click, ⟨0, 0⟩⟩ [⟨.move, ⟨5, 1⟩⟩, ⟨.click, ⟨5, 1⟩⟩]
    ⟨.cancel, ⟨5, 1⟩⟩).2.2⟩

/-- C7: a newly constructed tool is in state `P0` and owns no entity; and in
every live session reached by `begin` followed by `update` calls, state `P0`
implies that `temp` is null and state `P1` that `temp` holds an entity. -/
theorem tool_entity_invariant (doc : Document) (a0 : ToolArgs) (evs : List ToolArgs) :
    ToolDrawDimension.new.state = .P0 ∧ ToolDrawDimension.new.temp = none
      ∧ ∃ s, run doc a0 evs = some s
        ∧ ∀ t doc1, s = .live t doc1 →
          (t.state = .P0 → t.temp = none) ∧ (t.state = .P1 → t.temp.isSome = true) := by
  refine ⟨rfl, rfl, ?_⟩
  have hb : (Session.live ⟨some ⟨doc.dimensions.length, a0.coords, a0.coords, a0.coords⟩, .P1,
      .arbitrary⟩ doc).begun := ⟨fun h => State.noConfusion h, rfl⟩
  obtain ⟨s, hs, hsb, -⟩ := deliver_of_begun evs _ hb
  refine ⟨s, by simpa [run, begin_start] using hs, ?_⟩
  rintro t doc1 rfl
  exact ⟨fun h0 => absurd h0 hsb.1, fun _ => hsb.2⟩

/-- Witness of C7: after `begin` and a move the tool is in state `P1` and
holds the entity with the moved second anchor. -/
theorem tool_entity_invariant_witness :
    run ⟨[]⟩ ⟨.click, ⟨0, 0⟩⟩ [⟨.move, ⟨5, 1⟩⟩]
        = some (.live ⟨some ⟨0, ⟨0, 0⟩, ⟨5, 1⟩, ⟨0, 0⟩⟩, .P1, .arbitrary⟩ ⟨[]⟩)
      ∧ ∃ s, run ⟨[]⟩ ⟨.click, ⟨0, 0⟩⟩ [⟨.move, ⟨5, 1⟩⟩] = some s
        ∧ ∀ t doc1, s = .live t doc1 →
          (t.state = .P0 → t.temp = none) ∧ (t.state = .P1 → t.temp.isSome = true) :=
  ⟨rfl, (tool_entity_invariant ⟨[]⟩ ⟨.click, ⟨0, 0⟩⟩ [⟨.move, ⟨5, 1⟩⟩]).2.2⟩

end Horizon
